import Mathlib

/-!
Shallow embedding of the EcoScan AI decision core:
`scoring.py` (impact classification, CO2 estimation, alternative suggestion),
`disposal.py` (city-based disposal resolution), the orchestration in
`main.py` (`build_product_result`), and the persistence round trip of
`database.py` (`insert_scan` / `get_scan_by_id`).

Python strings are Lean `String`s; Python substring tests (`needle in haystack`)
are an executable character-list search; `str.lower()` / `str.strip()` /
`str.title()` are character-wise ASCII operations matching CPython on the
ASCII texts this code handles; Python float literals are modelled as the exact
rationals they denote in the source (no float arithmetic is ever performed on
them — they are constants passed through).  Python dicts with string keys are
association lists looked up in insertion order (keys here are distinct, so this
agrees with dict semantics).  Absent JSON fields (`product_data.get(...)`)
are `Option` fields defaulting to `none`, and Python `or`-defaulting (which
treats `None` and `""` as falsy) is modelled explicitly.
-/

namespace EcoScan

/-- Python `needle in haystack` at the start: is `needle` a prefix of `l`? -/
def listPrefixOf : List Char → List Char → Bool
  | [], _ => true
  | _ :: _, [] => false
  | a :: as, b :: bs => a == b && listPrefixOf as bs

/-- Substring containment on character lists (Python `in` for `str`). -/
def containsSub (needle : List Char) : List Char → Bool
  | [] => listPrefixOf needle []
  | c :: cs => listPrefixOf needle (c :: cs) || containsSub needle cs

/-- Python `needle in haystack` for strings. -/
def pyIn (needle haystack : String) : Bool :=
  containsSub needle.data haystack.data

/-- Python `str.lower()` (character-wise, ASCII). -/
def pyLower (s : String) : String :=
  String.mk (s.data.map Char.toLower)

/-- Python `str.strip()`: drop leading and trailing whitespace. -/
def pyStrip (s : String) : String :=
  String.mk
    (((s.data.dropWhile Char.isWhitespace).reverse.dropWhile
        Char.isWhitespace).reverse)

/-- Python `a or b` on strings: `b` when `a` is empty (falsy), else `a`. -/
def pyOrStr (a b : String) : String :=
  if a = "" then b else a

/-- Python `a or b` where `a` is an optional string (`None`/`""` are falsy). -/
def pyOrOpt (a : Option String) (b : String) : String :=
  match a with
  | none => b
  | some s => if s = "" then b else s

/-- Python `d.get(k, dflt)` over an association list. -/
def dictGetD {α : Type} (d : List (String × α)) (k : String) (dflt : α) : α :=
  match List.lookup k d with
  | some v => v
  | none => dflt

/-- One step of Python `str.title()`: uppercase a letter that follows a
non-letter, lowercase a letter that follows a letter. -/
def titleMap : Bool → List Char → List Char
  | _, [] => []
  | prevAlpha, c :: cs =>
      (if prevAlpha then c.toLower else c.toUpper) :: titleMap c.isAlpha cs

/-- Python `str.title()` (ASCII). -/
def pyTitle (s : String) : String :=
  String.mk (titleMap false s.data)

/-!  ## Data model

`ProductRecord` embeds the Open Food Facts product payload fields the code
reads (`scoring.score_product`, `main.build_product_result`,
`main._build_packaging_text`).  Every field is optional: `product_data.get`
returns `None` for a missing key. -/

structure ProductRecord where
  categories_tags : Option (List String) := none
  labels_tags : Option (List String) := none
  packaging_tags : Option (List String) := none
  product_name : Option String := none
  product_name_en : Option String := none
  ingredients_text : Option String := none
  nova_group : Option String := none
  packaging : Option String := none
  image_url : Option String := none
deriving Repr, DecidableEq

/-!  ## scoring.py  -/

/-- `IMPACT_TO_CO2 = \x7b"Red": 5.0, "Yellow": 2.5, "Green": 0.8\x7d` -/
def IMPACT_TO_CO2 : List (String × ℚ) :=
  [("Red", 5), ("Yellow", 5/2), ("Green", 4/5)]

/-- `IMPACT_TO_LABEL` from `scoring.py`. -/
def IMPACT_TO_LABEL : List (String × String) :=
  [("Red", "High Impact"), ("Yellow", "Medium Impact"), ("Green", "Low Impact")]

/-- `_normalize_text(values) = " ".join(values).lower()` -/
def normalize_text (values : List String) : String :=
  pyLower (String.intercalate " " values)

/-- Local `category_blob` of `score_product` (missing list → `[]`). -/
def category_blob (p : ProductRecord) : String :=
  normalize_text (p.categories_tags.getD [])

/-- Local `label_blob` of `score_product`. -/
def label_blob (p : ProductRecord) : String :=
  normalize_text (p.labels_tags.getD [])

/-- Local `packaging_blob` of `score_product`. -/
def packaging_blob (p : ProductRecord) : String :=
  normalize_text (p.packaging_tags.getD [])

/-- Local `nova_group = str(product_data.get("nova_group") or "").strip()`. -/
def nova_group_str (p : ProductRecord) : String :=
  pyStrip (p.nova_group.getD "")

/-- Local `combined` of `score_product`: space-join of the three blobs, the
lower-cased product name and the lower-cased ingredients text. -/
def combined_text (p : ProductRecord) : String :=
  String.intercalate " "
    [category_blob p, label_blob p, packaging_blob p,
     pyLower (p.product_name.getD ""), pyLower (p.ingredients_text.getD "")]

/-- `score_product(product_data) -> (impact_score, explanation)`:
ordered first-match-wins keyword rules from `scoring.py` lines 16-42. -/
def score_product (p : ProductRecord) : String × String :=
  if pyIn "beef" (combined_text p) || pyIn "meat" (combined_text p) then
    ("Red", "Category indicates meat-heavy product (higher footprint).")
  else if nova_group_str p == "4" || pyIn "packaged-foods" (category_blob p) then
    ("Yellow", "Likely ultra-processed packaged food.")
  else if ["plant", "vegan", "vegetarian", "plant-based"].any
      (fun term => pyIn term (combined_text p)) then
    ("Green", "Plant-based indicators found.")
  else if ["bulk", "recyclable", "paper"].any
      (fun term => pyIn term (packaging_blob p)) then
    ("Green", "Lower-impact packaging indicators found.")
  else
    ("Yellow", "Insufficient certainty; assigned medium impact.")

/-- `estimate_co2(impact_score) = IMPACT_TO_CO2.get(impact_score, 2.5)` -/
def estimate_co2 (impact_score : String) : ℚ :=
  dictGetD IMPACT_TO_CO2 impact_score (5/2)

/-- `suggest_alternative(impact_score, product_name)` from `scoring.py`. -/
def suggest_alternative (impact_score product_name : String) : String :=
  let name := pyOrStr (pyStrip product_name) "this product"
  if impact_score = "Red" then
    "Try a plant-based version of " ++ name ++ " and choose minimal packaging."
  else if impact_score = "Yellow" then
    "Consider a less-processed or refill/bulk alternative to " ++ name ++ "."
  else
    name ++ " is a lower-impact choice. Prioritize local sourcing when possible."

/-!  ## disposal.py  -/

/-- `SUPPORTED_CITIES = ("San Francisco", "Chicago")` -/
def SUPPORTED_CITIES : List String := ["San Francisco", "Chicago"]

/-- `CITY_DISPOSAL_RULES`: static city → material → action table. -/
def CITY_DISPOSAL_RULES : List (String × List (String × String)) :=
  [("San Francisco",
    [("plastic bottle", "Recycle"),
     ("glass bottle", "Recycle"),
     ("greasy cardboard", "Trash")]),
   ("Chicago",
    [("plastic bottle", "Recycle"),
     ("glass bottle", "Recycle"),
     ("greasy cardboard", "Trash")])]

/-- `detect_material(packaging_text)`: first matching substring among the three
known materials in the lower-cased packaging text, else `"unknown"`. -/
def detect_material (packaging_text : String) : String :=
  let text := pyLower packaging_text
  if pyIn "plastic bottle" text then "plastic bottle"
  else if pyIn "glass bottle" text then "glass bottle"
  else if pyIn "greasy cardboard" text then "greasy cardboard"
  else "unknown"

/-- The payload dict returned by `get_disposal_instruction`. -/
structure DisposalDecision where
  city : String
  material : String
  disposal_type : String
  icon : String
  detail : String
deriving Repr, DecidableEq

/-- `get_disposal_instruction(city, packaging_text)` from `disposal.py`
(the `packaging_text or ""` guard only replaces `None` by `""`; on string
inputs it is the identity up to the empty string, which it maps to itself). -/
def get_disposal_instruction (city packaging_text : String) : DisposalDecision :=
  let material := detect_material packaging_text
  let city_rules := dictGetD CITY_DISPOSAL_RULES city []
  let disposal_type := dictGetD city_rules material "Check Local Guidelines"
  let icon :=
    if disposal_type = "Recycle" then "♻"
    else if disposal_type = "Trash" then "🗑"
    else "ℹ"
  let detail :=
    if material ≠ "unknown" then pyTitle material ++ " -> " ++ disposal_type
    else "Material unclear. Follow local sorting guidelines."
  { city := city, material := material, disposal_type := disposal_type,
    icon := icon, detail := detail }

/-!  ## main.py  -/

/-- The `ProductResult` pydantic model of `main.py`. -/
structure ProductResult where
  barcode : String
  city : String
  product_name : String
  product_image : Option String
  impact_score : String
  impact_label : String
  impact_reason : String
  co2_estimate : ℚ
  disposal_type : String
  disposal_detail : String
  disposal_icon : String
  suggested_alternative : String
  packaging_text : String
deriving Repr, DecidableEq

/-- The `HTTPException` raised for an unsupported city in
`build_product_result`: status 400 and the f-string detail (the Python repr
of the `SUPPORTED_CITIES` tuple is interpolated). -/
def unsupported_city_error : Nat × String :=
  (400, "Unsupported city. Use one of: (\x27San Francisco\x27, \x27Chicago\x27)")

/-- `_build_packaging_text(product) = " ".join(tags + [packaging_raw]).strip()` -/
def build_packaging_text (product : ProductRecord) : String :=
  pyStrip (String.intercalate " "
    ((product.packaging_tags.getD []) ++ [product.packaging.getD ""]))

/-- `build_product_result(barcode, city)` from `main.py`.  The network fetch
(`fetch_product_from_open_food_facts`) is resolved into the `fetched`
argument: either the product payload or the `HTTPException` the fetch raised
(502 request failure / 404 not found).  The city validation runs first, so an
unsupported city is rejected before the fetch and before disposal resolution. -/
def build_product_result (barcode city : String)
    (fetched : Except (Nat × String) ProductRecord) :
    Except (Nat × String) ProductResult :=
  if city ∉ SUPPORTED_CITIES then
    Except.error unsupported_city_error
  else
    match fetched with
    | Except.error e => Except.error e
    | Except.ok product =>
      let product_name :=
        pyOrOpt product.product_name (pyOrOpt product.product_name_en "Unknown Product")
      let impact := score_product product
      let impact_score := impact.1
      let co2 := estimate_co2 impact_score
      let packaging_text := build_packaging_text product
      let disposal := get_disposal_instruction city packaging_text
      let alternative := suggest_alternative impact_score product_name
      Except.ok
        { barcode := barcode
          city := city
          product_name := product_name
          product_image := product.image_url
          impact_score := impact_score
          impact_label := dictGetD IMPACT_TO_LABEL impact_score "Medium Impact"
          impact_reason := impact.2
          co2_estimate := co2
          disposal_type := disposal.disposal_type
          disposal_detail := disposal.detail
          disposal_icon := disposal.icon
          suggested_alternative := alternative
          packaging_text := packaging_text }

/-!  ## database.py

The `scans` table is a list of rows plus the next auto-assigned
`INTEGER PRIMARY KEY` and the current clock (`CURRENT_TIMESTAMP`, assigned by
the `DEFAULT` at insert time).  SQLite assigns a fresh id larger than every
existing id; that property is the `freshIds` invariant below. -/

structure ScanRow where
  id : Nat
  product_name : String
  barcode : String
  city : String
  impact_score : String
  disposal_type : String
  co2_estimate : ℚ
  timestamp : Nat
deriving Repr, DecidableEq

structure ScansDB where
  rows : List ScanRow
  nextId : Nat
  now : Nat
deriving Repr

/-- Every stored id is below the next auto-assigned id (SQLite rowid). -/
def ScansDB.freshIds (db : ScansDB) : Prop :=
  ∀ r ∈ db.rows, r.id < db.nextId

/-- `insert_scan(...) -> int`: append a row with the auto-assigned id and the
write-time timestamp, return the created id (with the updated store). -/
def insert_scan (db : ScansDB)
    (product_name barcode city impact_score disposal_type : String)
    (co2_estimate : ℚ) : Nat × ScansDB :=
  let id := db.nextId
  (id,
   { db with
      rows := db.rows ++
        [{ id := id, product_name := product_name, barcode := barcode,
           city := city, impact_score := impact_score,
           disposal_type := disposal_type, co2_estimate := co2_estimate,
           timestamp := db.now }]
      nextId := db.nextId + 1 })

/-- `get_scan_by_id(scan_id)`: `SELECT ... WHERE id = ?` + `fetchone`. -/
def get_scan_by_id (db : ScansDB) (scan_id : Nat) : Option ScanRow :=
  db.rows.find? (fun r => r.id == scan_id)

/-!  ## Theorems  -/

/-- Helper: the default branch of `estimate_co2` for a tier outside the
`IMPACT_TO_CO2` keys. -/
theorem estimate_co2_unknown_default (tier : String)
    (h : tier ∉ (["Red", "Yellow", "Green"] : List String)) :
    estimate_co2 tier = 5/2 := by
  simp only [List.mem_cons, List.not_mem_nil, or_false, not_or] at h
  obtain ⟨h1, h2, h3⟩ := h
  have b1 : (tier == "Red") = false := by simp [h1]
  have b2 : (tier == "Yellow") = false := by simp [h2]
  have b3 : (tier == "Green") = false := by simp [h3]
  unfold estimate_co2 dictGetD IMPACT_TO_CO2
  simp [List.lookup, b1, b2, b3]

/-- C1: a ProductRecord whose combined lower-cased text contains "beef" or
"meat" is classified "Red" with the meat-heavy rationale, whatever the other
fields hold — rule 1 has highest priority and first match wins. -/
theorem score_product_meat_rule (p : ProductRecord)
    (h : pyIn "beef" (combined_text p) = true ∨ pyIn "meat" (combined_text p) = true) :
    score_product p = ("Red", "Category indicates meat-heavy product (higher footprint).") := by
  unfold score_product
  rcases h with h | h <;> simp [h]

/-- Witness for C1 at a concrete record containing "beef". -/
theorem score_product_meat_rule_witness :
    pyIn "beef" (combined_text { product_name := some "Beef Jerky" }) = true ∧
    score_product { product_name := some "Beef Jerky" } =
      ("Red", "Category indicates meat-heavy product (higher footprint).") :=
  ⟨by decide, score_product_meat_rule { product_name := some "Beef Jerky" } (Or.inl (by decide))⟩

/-- C2: when no keyword rule matches (no "beef"/"meat", processing level not
"4", no "packaged-foods" in the category text, no plant indicator in the
combined text, no packaging indicator in the packaging text), `score_product`
returns "Yellow" with the insufficient-certainty rationale; absent fields are
empty strings and never an error (the all-absent record of the witness hits
exactly this branch). -/
theorem score_product_default_medium (p : ProductRecord)
    (h1 : pyIn "beef" (combined_text p) = false)
    (h2 : pyIn "meat" (combined_text p) = false)
    (h3 : nova_group_str p ≠ "4")
    (h4 : pyIn "packaged-foods" (category_blob p) = false)
    (h5 : ∀ term ∈ (["plant", "vegan", "vegetarian", "plant-based"] : List String),
        pyIn term (combined_text p) = false)
    (h6 : ∀ term ∈ (["bulk", "recyclable", "paper"] : List String),
        pyIn term (packaging_blob p) = false) :
    score_product p = ("Yellow", "Insufficient certainty; assigned medium impact.") := by
  unfold score_product
  have h3b : (nova_group_str p == "4") = false := by simp [h3]
  have h5a := h5 "plant" (by simp)
  have h5b := h5 "vegan" (by simp)
  have h5c := h5 "vegetarian" (by simp)
  have h5d := h5 "plant-based" (by simp)
  have h6a := h6 "bulk" (by simp)
  have h6b := h6 "recyclable" (by simp)
  have h6c := h6 "paper" (by simp)
  simp [h1, h2, h3b, h4, h5a, h5b, h5c, h5d, h6a, h6b, h6c]

/-- Witness for C2: the record with every field absent resolves, without
error, to the default Medium tier. -/
theorem score_product_default_medium_witness :
    score_product {} = ("Yellow", "Insufficient certainty; assigned medium impact.") :=
  score_product_default_medium {} (by decide) (by decide) (by decide) (by decide)
    (by decide) (by decide)

/-- C9: `score_product` is deterministic — it is a pure function of the
record it is given (the embedded source reads only its argument and the
immutable module constants), so equal inputs give identical
(tier, rationale) results. -/
theorem score_product_deterministic (p q : ProductRecord) (h : p = q) :
    score_product p = score_product q := by
  rw [h]

/-- Witness for C9 at a concrete record. -/
theorem score_product_deterministic_witness :
    score_product { product_name := some "Oat Milk" } =
      score_product { product_name := some "Oat Milk" } :=
  score_product_deterministic { product_name := some "Oat Milk" }
    { product_name := some "Oat Milk" } rfl

/-- C4: `estimate_co2` is a function of the tier string alone with the fixed
exact constants Red → 5.0, Yellow → 2.5, Green → 0.8, and every other input
string gets the default 2.5. -/
theorem estimate_co2_constants :
    estimate_co2 "Red" = 5 ∧ estimate_co2 "Yellow" = 5/2 ∧
    estimate_co2 "Green" = 4/5 ∧
    ∀ tier : String, tier ∉ (["Red", "Yellow", "Green"] : List String) →
      estimate_co2 tier = 5/2 :=
  ⟨rfl, rfl, rfl, estimate_co2_unknown_default⟩

/-- Witness for C4 at the unknown tier "Blue". -/
theorem estimate_co2_constants_witness : estimate_co2 "Blue" = 5/2 :=
  estimate_co2_constants.2.2.2 "Blue" (by decide)

/-- C10: `suggest_alternative` picks the High message exactly for "Red" and
the Medium message exactly for "Yellow"; every other tier string — "Green",
unrecognized or empty — gets the lower-impact-choice message, even though
`estimate_co2` treats the same unknown tier as Medium (2.5); a blank or
whitespace-only product name becomes "this product" in every branch. -/
theorem suggest_alternative_tiers :
    (∀ name, suggest_alternative "Red" name =
      "Try a plant-based version of " ++ pyOrStr (pyStrip name) "this product" ++
        " and choose minimal packaging.")
    ∧ (∀ name, suggest_alternative "Yellow" name =
      "Consider a less-processed or refill/bulk alternative to " ++
        pyOrStr (pyStrip name) "this product" ++ ".")
    ∧ (∀ tier name, tier ≠ "Red" → tier ≠ "Yellow" →
        suggest_alternative tier name =
          pyOrStr (pyStrip name) "this product" ++
            " is a lower-impact choice. Prioritize local sourcing when possible.")
    ∧ (∀ name, pyStrip name = "" → pyOrStr (pyStrip name) "this product" = "this product")
    ∧ (∀ tier, tier ∉ (["Red", "Yellow", "Green"] : List String) →
        estimate_co2 tier = 5/2) := by
  refine ⟨?_, ?_, ?_, ?_, estimate_co2_unknown_default⟩
  · intro name; simp [suggest_alternative]
  · intro name; simp [suggest_alternative]
  · intro tier name hR hY; simp [suggest_alternative, hR, hY]
  · intro name h; simp [pyOrStr, h]

/-- Witness for C10: the unrecognized tier "Purple" with a whitespace-only
name yields the lower-impact message about "this product". -/
theorem suggest_alternative_tiers_witness :
    suggest_alternative "Purple" "  " =
      "this product is a lower-impact choice. Prioritize local sourcing when possible." := by
  rw [suggest_alternative_tiers.2.2.1 "Purple" "  " (by decide) (by decide)]
  decide

/-- Helper: the city lookup in `get_disposal_instruction` yields either the
shared three-material rule list (for a supported city) or the empty default. -/
theorem city_rules_cases (city : String) :
    dictGetD CITY_DISPOSAL_RULES city [] =
      [("plastic bottle", "Recycle"), ("glass bottle", "Recycle"),
       ("greasy cardboard", "Trash")]
    ∨ dictGetD CITY_DISPOSAL_RULES city [] = [] := by
  unfold dictGetD CITY_DISPOSAL_RULES
  by_cases hsf : city = "San Francisco"
  · simp [List.lookup, hsf]
  · by_cases hch : city = "Chicago"
    · simp [List.lookup, hsf, hch]
    · have b1 : (city == "San Francisco") = false := by simp [hsf]
      have b2 : (city == "Chicago") = false := by simp [hch]
      simp [List.lookup, b1, b2]

/-- Helper: `detect_material` only ever returns one of the three known
materials or "unknown". -/
theorem detect_material_cases (text : String) :
    detect_material text = "plastic bottle" ∨ detect_material text = "glass bottle"
    ∨ detect_material text = "greasy cardboard" ∨ detect_material text = "unknown" := by
  unfold detect_material
  simp only []
  split_ifs <;> simp

/-- Helper: the `disposal_type` field of `get_disposal_instruction` is the
two-level table lookup with default "Check Local Guidelines". -/
theorem disposal_type_eq (city text : String) :
    (get_disposal_instruction city text).disposal_type =
      dictGetD (dictGetD CITY_DISPOSAL_RULES city []) (detect_material text)
        "Check Local Guidelines" := rfl

/-- Helper: the disposal action is always one of the three enumerated values. -/
theorem disposal_action_mem (city text : String) :
    (get_disposal_instruction city text).disposal_type ∈
      (["Recycle", "Trash", "Check Local Guidelines"] : List String) := by
  rw [disposal_type_eq]
  rcases city_rules_cases city with hc | hc <;> rw [hc] <;>
    rcases detect_material_cases text with hm | hm | hm | hm <;> rw [hm] <;> decide

/-- Helper: the impact tier returned by `score_product` is always one of the
three enumerated colors. -/
theorem score_tier_mem (p : ProductRecord) :
    (score_product p).1 ∈ (["Red", "Yellow", "Green"] : List String) := by
  unfold score_product
  split_ifs <;> simp

/-- C5: material detection returns the first matching substring among the
three known materials in lower-cased packaging text, else "unknown"; the
action comes from the static per-city table (plastic/glass bottle → Recycle,
greasy cardboard → Trash in both supported cities), an unmatched material
yields "Check Local Guidelines"; resolving ("San Francisco",
"plastic bottle wrap") gives material "plastic bottle" and action "Recycle",
and ("Chicago", "styrofoam tray") gives "unknown" and
"Check Local Guidelines". -/
theorem detect_material_and_lookup :
    (∀ text, pyIn "plastic bottle" (pyLower text) = true →
        detect_material text = "plastic bottle")
    ∧ (∀ text, pyIn "plastic bottle" (pyLower text) = false →
        pyIn "glass bottle" (pyLower text) = true →
        detect_material text = "glass bottle")
    ∧ (∀ text, pyIn "plastic bottle" (pyLower text) = false →
        pyIn "glass bottle" (pyLower text) = false →
        pyIn "greasy cardboard" (pyLower text) = true →
        detect_material text = "greasy cardboard")
    ∧ (∀ text, pyIn "plastic bottle" (pyLower text) = false →
        pyIn "glass bottle" (pyLower text) = false →
        pyIn "greasy cardboard" (pyLower text) = false →
        detect_material text = "unknown")
    ∧ (∀ city ∈ SUPPORTED_CITIES,
        dictGetD (dictGetD CITY_DISPOSAL_RULES city []) "plastic bottle"
            "Check Local Guidelines" = "Recycle"
        ∧ dictGetD (dictGetD CITY_DISPOSAL_RULES city []) "glass bottle"
            "Check Local Guidelines" = "Recycle"
        ∧ dictGetD (dictGetD CITY_DISPOSAL_RULES city []) "greasy cardboard"
            "Check Local Guidelines" = "Trash")
    ∧ (∀ city text, detect_material text = "unknown" →
        (get_disposal_instruction city text).disposal_type = "Check Local Guidelines")
    ∧ (get_disposal_instruction "San Francisco" "plastic bottle wrap").material
        = "plastic bottle"
    ∧ (get_disposal_instruction "San Francisco" "plastic bottle wrap").disposal_type
        = "Recycle"
    ∧ (get_disposal_instruction "Chicago" "styrofoam tray").material = "unknown"
    ∧ (get_disposal_instruction "Chicago" "styrofoam tray").disposal_type
        = "Check Local Guidelines" := by
  refine ⟨?_, ?_, ?_, ?_, ?_, ?_, by decide, by decide, by decide, by decide⟩
  · intro text h; unfold detect_material; simp [h]
  · intro text h1 h2; unfold detect_material; simp [h1, h2]
  · intro text h1 h2 h3; unfold detect_material; simp [h1, h2, h3]
  · intro text h1 h2 h3; unfold detect_material; simp [h1, h2, h3]
  · intro city hcity
    rcases List.mem_cons.mp hcity with rfl | hcity
    · exact ⟨by decide, by decide, by decide⟩
    rcases List.mem_cons.mp hcity with rfl | hcity
    · exact ⟨by decide, by decide, by decide⟩
    · simp at hcity
  · intro city text hm
    rw [disposal_type_eq, hm]
    rcases city_rules_cases city with hc | hc <;> rw [hc] <;> decide

/-- Witness for C5: the upper-cased packaging text still matches after
lower-casing. -/
theorem detect_material_and_lookup_witness :
    pyIn "plastic bottle" (pyLower "PLASTIC BOTTLE wrap") = true ∧
    detect_material "PLASTIC BOTTLE wrap" = "plastic bottle" :=
  ⟨by decide, detect_material_and_lookup.1 "PLASTIC BOTTLE wrap" (by decide)⟩

/-- Counterexample for C6: at ("San Francisco", "plastic bottle") the
detected material is "plastic bottle" and the action "Recycle", yet the
detail is not the claimed "plastic bottle -> Recycle" — the code title-cases
the material ("Plastic Bottle -> Recycle"). -/
theorem disposal_detail_counterexample :
    (get_disposal_instruction "San Francisco" "plastic bottle").material
        = "plastic bottle"
    ∧ (get_disposal_instruction "San Francisco" "plastic bottle").disposal_type
        = "Recycle"
    ∧ (get_disposal_instruction "San Francisco" "plastic bottle").detail
        ≠ "plastic bottle" ++ " -> " ++ "Recycle"
    ∧ (get_disposal_instruction "San Francisco" "plastic bottle").detail
        = "Plastic Bottle -> Recycle" := by
  refine ⟨by decide, by decide, by decide, by decide⟩

/-- C6 (amended): when the detected material is known the detail text is
"{material.title()} -> {action}" — the title-cased detected material, an
arrow, and the looked-up action; when the material is "unknown" the detail is
the generic guidance string. -/
theorem disposal_detail_format (city text : String) :
    ((get_disposal_instruction city text).material ≠ "unknown" →
      (get_disposal_instruction city text).detail =
        pyTitle (get_disposal_instruction city text).material ++ " -> " ++
          (get_disposal_instruction city text).disposal_type)
    ∧ ((get_disposal_instruction city text).material = "unknown" →
      (get_disposal_instruction city text).detail =
        "Material unclear. Follow local sorting guidelines.") := by
  have hmat : (get_disposal_instruction city text).material = detect_material text := rfl
  constructor
  · intro h
    rw [hmat] at h
    show (if detect_material text ≠ "unknown" then _ else _) = _
    rw [if_pos h]
    rfl
  · intro h
    rw [hmat] at h
    show (if detect_material text ≠ "unknown" then _ else _) = _
    rw [if_neg (by simp [h])]

/-- Witness for C6 (amended) at a concrete known material. -/
theorem disposal_detail_format_witness :
    (get_disposal_instruction "Chicago" "glass bottle").detail =
      pyTitle (get_disposal_instruction "Chicago" "glass bottle").material ++ " -> " ++
        (get_disposal_instruction "Chicago" "glass bottle").disposal_type :=
  (disposal_detail_format "Chicago" "glass bottle").1 (by decide)

/-- C3: a city outside the supported set is rejected with the 400 validation
error before anything else runs — whatever the barcode and whatever the fetch
would have produced (hence for every packaging text a product could carry),
no disposal resolution happens and no normal result is returned. -/
theorem unsupported_city_rejected (barcode city : String)
    (fetched : Except (Nat × String) ProductRecord)
    (h : city ∉ SUPPORTED_CITIES) :
    build_product_result barcode city fetched = Except.error unsupported_city_error := by
  unfold build_product_result
  rw [if_pos h]

/-- Witness for C3: resolving for the city "Nowhere" with a product whose
packaging is "plastic bottle" is the validation error, not a decision. -/
theorem unsupported_city_rejected_witness :
    build_product_result "737628064502" "Nowhere"
        (Except.ok { packaging := some "plastic bottle" })
      = Except.error unsupported_city_error :=
  unsupported_city_rejected "737628064502" "Nowhere"
    (Except.ok { packaging := some "plastic bottle" }) (by decide)

/-- C7: the stored enumerations are never free-form — every tier produced by
`score_product` is one of Red/Yellow/Green, every action produced by
`get_disposal_instruction` is one of Recycle/Trash/Check Local Guidelines,
and therefore the `impact_score` and `disposal_type` of every successful
`build_product_result` (the values `/scan` hands to `insert_scan`) lie in
those sets. -/
theorem scan_enumerations_invariant :
    (∀ p, (score_product p).1 ∈ (["Red", "Yellow", "Green"] : List String))
    ∧ (∀ city text, (get_disposal_instruction city text).disposal_type ∈
        (["Recycle", "Trash", "Check Local Guidelines"] : List String))
    ∧ (∀ (barcode city : String) (fetched : Except (Nat × String) ProductRecord)
        (result : ProductResult),
        build_product_result barcode city fetched = Except.ok result →
        result.impact_score ∈ (["Red", "Yellow", "Green"] : List String)
        ∧ result.disposal_type ∈
            (["Recycle", "Trash", "Check Local Guidelines"] : List String)) := by
  refine ⟨score_tier_mem, disposal_action_mem, ?_⟩
  intro barcode city fetched result h
  unfold build_product_result at h
  split at h
  · exact absurd h (by simp)
  · match fetched with
    | Except.error e => exact absurd h (by simp)
    | Except.ok product =>
      simp only [Except.ok.injEq] at h
      subst h
      exact ⟨score_tier_mem product, disposal_action_mem city _⟩

/-- Witness for C7: a successful concrete analysis (city "Chicago", empty
product payload) whose stored tier and action are in the enumerations. -/
theorem scan_enumerations_invariant_witness :
    (ProductResult.impact_score
        { barcode := "12345", city := "Chicago", product_name := "Unknown Product",
          product_image := none, impact_score := "Yellow",
          impact_label := "Medium Impact",
          impact_reason := "Insufficient certainty; assigned medium impact.",
          co2_estimate := 5/2, disposal_type := "Check Local Guidelines",
          disposal_detail := "Material unclear. Follow local sorting guidelines.",
          disposal_icon := "ℹ",
          suggested_alternative :=
            "Consider a less-processed or refill/bulk alternative to Unknown Product.",
          packaging_text := "" })
      ∈ (["Red", "Yellow", "Green"] : List String)
    ∧ (ProductResult.disposal_type
        { barcode := "12345", city := "Chicago", product_name := "Unknown Product",
          product_image := none, impact_score := "Yellow",
          impact_label := "Medium Impact",
          impact_reason := "Insufficient certainty; assigned medium impact.",
          co2_estimate := 5/2, disposal_type := "Check Local Guidelines",
          disposal_detail := "Material unclear. Follow local sorting guidelines.",
          disposal_icon := "ℹ",
          suggested_alternative :=
            "Consider a less-processed or refill/bulk alternative to Unknown Product.",
          packaging_text := "" })
      ∈ (["Recycle", "Trash", "Check Local Guidelines"] : List String) :=
  scan_enumerations_invariant.2.2 "12345" "Chicago" (Except.ok {}) _ rfl

/-- Helper: `find?` over an appended list searches the left part first. -/
theorem find?_append_of_none {α : Type} (p : α → Bool) (l₁ l₂ : List α)
    (h : l₁.find? p = none) : (l₁ ++ l₂).find? p = l₂.find? p := by
  induction l₁ with
  | nil => rfl
  | cons a as ih =>
    cases hp : p a with
    | true => simp [List.find?_cons, hp] at h
    | false =>
      simp only [List.cons_append, List.find?_cons, hp] at h ⊢
      exact ih h

/-- C8: round trip through persistence — inserting an analysis with
`insert_scan` and reading the row back by the returned id with
`get_scan_by_id` yields exactly the six stored fields, with the timestamp
assigned from the clock at write time (given SQLite's fresh-rowid invariant
`freshIds`). -/
theorem insert_scan_roundtrip (db : ScansDB) (hdb : db.freshIds)
    (product_name barcode city impact_score disposal_type : String) (co2 : ℚ) :
    get_scan_by_id
        (insert_scan db product_name barcode city impact_score disposal_type co2).2
        (insert_scan db product_name barcode city impact_score disposal_type co2).1
      = some { id := db.nextId, product_name := product_name, barcode := barcode,
               city := city, impact_score := impact_score,
               disposal_type := disposal_type, co2_estimate := co2,
               timestamp := db.now } := by
  unfold insert_scan get_scan_by_id
  simp only []
  rw [find?_append_of_none]
  · rw [List.find?_cons]
    simp
  · rw [List.find?_eq_none]
    intro r hr
    have : r.id < db.nextId := hdb r hr
    simp [Nat.ne_of_lt this]

/-- Witness for C8: inserting into the empty store and reading back id 1. -/
theorem insert_scan_roundtrip_witness :
    get_scan_by_id
        (insert_scan ⟨[], 1, 20251012⟩ "Oat Milk" "737628064502" "Chicago"
          "Yellow" "Check Local Guidelines" (5/2)).2
        (insert_scan ⟨[], 1, 20251012⟩ "Oat Milk" "737628064502" "Chicago"
          "Yellow" "Check Local Guidelines" (5/2)).1
      = some { id := 1, product_name := "Oat Milk", barcode := "737628064502",
               city := "Chicago", impact_score := "Yellow",
               disposal_type := "Check Local Guidelines", co2_estimate := 5/2,
               timestamp := 20251012 } :=
  insert_scan_roundtrip ⟨[], 1, 20251012⟩ (by intro r hr; simp at hr)
    "Oat Milk" "737628064502" "Chicago" "Yellow" "Check Local Guidelines" (5/2)

end EcoScan
